import Mathlib

/-!
Verification of the data-normalization and indicator pipeline of
`data_utils.py` (stock_analysis repository).

The Python module is shallowly embedded: pandas column operations become
functions on `List ℚ`, a dataframe becomes a record of optional columns,
`NaN` cells become `Option.none`, provider calls become oracle functions
stored in provider records, and a Python `dict` result or raised/returned
error becomes `Except String _`.  Floating-point square root (used by
`rolling(...).std()`) is abstracted as a parameter `sq : ℚ → ℚ`; no claim
under consideration depends on its value.  Calendar dates are modelled as
day numbers (`Nat`), with `now - k` standing for
`datetime.now() - timedelta(days=k)`.
-/

/-- One raw daily bar as returned by the provider (`pro.daily` / `pro.hk_daily`).
`turnover_rate` is the optional mainland turnover cell; `none` stands for a
missing cell (absent column or NaN). -/
structure RawBar where
  trade_date : Nat
  close : ℚ
  pct_chg : ℚ
  vol : ℚ
  turnover_rate : Option ℚ

/-- Market routing used throughout `data_utils.py`: `ts_code.endswith('.HK')`.
Written over `String.data` so it evaluates inside the kernel. -/
def isHK (code : String) : Bool :=
  match code.data.reverse with
  | 'K' :: 'H' :: '.' :: _ => true
  | _ => false

/-- Insertion step of an ascending-by-key sort (models `sort_values(key)`). -/
def insertAscBy {α : Type} (key : α → Nat) (r : α) : List α → List α
  | [] => [r]
  | x :: xs => if key r ≤ key x then r :: x :: xs else x :: insertAscBy key r xs

/-- Ascending sort by key, models `df.sort_values(key)` (line 29). -/
def sortAscBy {α : Type} (key : α → Nat) (l : List α) : List α :=
  l.foldr (insertAscBy key) []

/-- Insertion step of a descending-by-key sort. -/
def insertDescBy {α : Type} (key : α → Nat) (r : α) : List α → List α
  | [] => [r]
  | x :: xs => if key x ≤ key r then r :: x :: xs else x :: insertDescBy key r xs

/-- Descending sort by key, models `df.sort_values(key, ascending=False)`. -/
def sortDescBy {α : Type} (key : α → Nat) (l : List α) : List α :=
  l.foldr (insertDescBy key) []

/-- Trailing window of width `w` ending at index `i` (inclusive). -/
def windowSlice (w : Nat) (xs : List ℚ) (i : Nat) : List ℚ :=
  (xs.take (i + 1)).drop (i + 1 - w)

/-- pandas `Series.rolling(window=w).mean()` with the default
`min_periods = w`: defined from index `w - 1` on, `NaN` (`none`) before. -/
def rollingMean (w : Nat) (xs : List ℚ) : List (Option ℚ) :=
  (List.range xs.length).map
    (fun i => if w ≤ i + 1 then some ((windowSlice w xs i).sum / (w : ℚ)) else none)

/-- Sample variance (`ddof = 1`, the pandas `rolling(...).std()` default)
of one window. -/
def sampleVar (l : List ℚ) : ℚ :=
  ((l.map (fun x => (x - l.sum / (l.length : ℚ)) ^ 2)).sum) / ((l.length : ℚ) - 1)

/-- pandas `Series.rolling(window=w).std()`; `sq` abstracts the
floating-point square root. -/
def rollingStd (sq : ℚ → ℚ) (w : Nat) (xs : List ℚ) : List (Option ℚ) :=
  (List.range xs.length).map
    (fun i => if w ≤ i + 1 then some (sq (sampleVar (windowSlice w xs i))) else none)

/-- Recursion of `ewm(span, adjust=False).mean()` after the seed:
`y_t = (1 - a) * y_(t-1) + a * x_t`. -/
def ewmFrom (a y : ℚ) : List ℚ → List ℚ
  | [] => []
  | x :: xs => ((1 - a) * y + a * x) :: ewmFrom a ((1 - a) * y + a * x) xs

/-- pandas `Series.ewm(span=n, adjust=False).mean()`: seeded by the first
observation, smoothing factor `2 / (n + 1)`, defined from the first bar on. -/
def ewmMean (n : Nat) : List ℚ → List ℚ
  | [] => []
  | x :: xs => x :: ewmFrom (2 / ((n : ℚ) + 1)) x xs

/-- Tail of `Series.diff()` given the previous value. -/
def diffsFrom (prev : ℚ) : List ℚ → List (Option ℚ)
  | [] => []
  | x :: xs => some (x - prev) :: diffsFrom x xs

/-- pandas `Series.diff()`: `NaN` (`none`) at index 0, consecutive
differences after. -/
def diffCol : List ℚ → List (Option ℚ)
  | [] => []
  | x :: xs => none :: diffsFrom x xs

/-- `delta.where(delta > 0, 0)` (line 46): keeps positive deltas, replaces
everything else — including the `NaN` at index 0, whose comparison is
False — by `0`. -/
def gainCol (delta : List (Option ℚ)) : List ℚ :=
  delta.map (fun d => match d with
    | some v => if 0 < v then v else 0
    | none => 0)

/-- `-delta.where(delta < 0, 0)` (line 47): negative deltas sign-flipped
positive, everything else (including the index-0 `NaN`) `0`. -/
def lossCol (delta : List (Option ℚ)) : List ℚ :=
  delta.map (fun d => match d with
    | some v => if v < 0 then -v else 0
    | none => 0)

/-- Rolling-14 mean of gains (the `gain` series of line 46). -/
def gainAvgCol (close : List ℚ) : List (Option ℚ) :=
  rollingMean 14 (gainCol (diffCol close))

/-- Rolling-14 mean of losses (the `loss` series of line 47). -/
def lossAvgCol (close : List ℚ) : List (Option ℚ) :=
  rollingMean 14 (lossCol (diffCol close))

/-- One cell of `100 - (100 / (1 + gain / loss))` (lines 48-49) under IEEE
semantics mapped into `Option ℚ`: `loss = 0` with `gain ≠ 0` gives
`rs = ±inf`, hence RSI exactly `100`; `0 / 0` gives `NaN` (`none`);
otherwise the exact rational value. -/
def rsiPoint : Option ℚ → Option ℚ → Option ℚ
  | some g, some l =>
      if l = 0 then (if g = 0 then none else some 100)
      else some (100 - 100 / (1 + g / l))
  | _, _ => none

/-- The `df['rsi']` column of lines 44-49. -/
def rsiCol (close : List ℚ) : List (Option ℚ) :=
  List.zipWith rsiPoint (gainAvgCol close) (lossAvgCol close)

/-- NaN-propagating pointwise combination of two columns (pandas series
arithmetic such as `df['bb_middle'] + 2 * bb_std`). -/
def zipOptWith (f : ℚ → ℚ → ℚ) : List (Option ℚ) → List (Option ℚ) → List (Option ℚ) :=
  List.zipWith (fun a b => match a, b with
    | some x, some y => some (f x y)
    | _, _ => none)

/-- The dataframe inside `get_enhanced_technical_indicators`: the raw bars
plus the indicator columns added one by one; a column is `none` while its
assignment statement has not (yet) run. -/
structure DF where
  bars : List RawBar
  ma5 : Option (List (Option ℚ)) := none
  ma10 : Option (List (Option ℚ)) := none
  ma20 : Option (List (Option ℚ)) := none
  dif : Option (List ℚ) := none
  dea : Option (List ℚ) := none
  macd : Option (List ℚ) := none
  rsi : Option (List (Option ℚ)) := none
  bb_middle : Option (List (Option ℚ)) := none
  bb_upper : Option (List (Option ℚ)) := none
  bb_lower : Option (List (Option ℚ)) := none
  volatility : Option (List (Option ℚ)) := none

/-- The `close` column of the current dataframe. -/
def closeCol (df : DF) : List ℚ := df.bars.map RawBar.close

/-- The `pct_chg` column of the current dataframe. -/
def pctChgCol (df : DF) : List ℚ := df.bars.map RawBar.pct_chg

/-- Line 29: `df = df.sort_values('trade_date').reset_index(drop=True)`. -/
def stepSortDF (df : DF) : DF := { df with bars := sortAscBy RawBar.trade_date df.bars }

/-- Line 33: `df['ma5'] = close.rolling(window=5).mean()`. -/
def stepMa5 (df : DF) : DF := { df with ma5 := some (rollingMean 5 (closeCol df)) }

/-- Line 34: `df['ma10'] = close.rolling(window=10).mean()`. -/
def stepMa10 (df : DF) : DF := { df with ma10 := some (rollingMean 10 (closeCol df)) }

/-- Line 35: `df['ma20'] = close.rolling(window=20).mean()`. -/
def stepMa20 (df : DF) : DF := { df with ma20 := some (rollingMean 20 (closeCol df)) }

/-- Lines 38-40: `df['dif'] = exp1 - exp2` with
`exp1 = close.ewm(span=12, adjust=False).mean()` and
`exp2 = close.ewm(span=26, adjust=False).mean()`. -/
def stepDif (df : DF) : DF :=
  { df with dif := some (List.zipWith (fun a b => a - b)
      (ewmMean 12 (closeCol df)) (ewmMean 26 (closeCol df))) }

/-- Line 41: `df['dea'] = df['dif'].ewm(span=9, adjust=False).mean()`. -/
def stepDea (df : DF) : DF := { df with dea := Option.map (ewmMean 9) df.dif }

/-- Line 42: `df['macd'] = (df['dif'] - df['dea']) * 2`. -/
def stepMacd (df : DF) : DF :=
  { df with macd := match df.dif, df.dea with
      | some d, some e => some (List.zipWith (fun a b => (a - b) * 2) d e)
      | _, _ => none }

/-- Lines 45-49: the RSI block. -/
def stepRsi (df : DF) : DF := { df with rsi := some (rsiCol (closeCol df)) }

/-- Line 52: `df['bb_middle'] = close.rolling(window=20).mean()`. -/
def stepBbMiddle (df : DF) : DF := { df with bb_middle := some (rollingMean 20 (closeCol df)) }

/-- Lines 53-54: `df['bb_upper'] = df['bb_middle'] + 2 * bb_std` with
`bb_std = close.rolling(window=20).std()`. -/
def stepBbUpper (sq : ℚ → ℚ) (df : DF) : DF :=
  { df with bb_upper := match df.bb_middle with
      | some m => some (zipOptWith (fun a s => a + 2 * s) m (rollingStd sq 20 (closeCol df)))
      | none => none }

/-- Line 55: `df['bb_lower'] = df['bb_middle'] - 2 * bb_std`. -/
def stepBbLower (sq : ℚ → ℚ) (df : DF) : DF :=
  { df with bb_lower := match df.bb_middle with
      | some m => some (zipOptWith (fun a s => a - 2 * s) m (rollingStd sq 20 (closeCol df)))
      | none => none }

/-- Line 58: `df['volatility'] = df['pct_chg'].rolling(window=20).std()`. -/
def stepVol (sq : ℚ → ℚ) (df : DF) : DF :=
  { df with volatility := some (rollingStd sq 20 (pctChgCol df)) }

/-- The statements of the `try` block of
`get_enhanced_technical_indicators` (lines 29-58), in program order. -/
def indicatorSteps (sq : ℚ → ℚ) : List (DF → DF) :=
  [stepSortDF, stepMa5, stepMa10, stepMa20, stepDif, stepDea, stepMacd, stepRsi,
   stepBbMiddle, stepBbUpper sq, stepBbLower sq, stepVol sq]

/-- Sequential execution of statements with no fault. -/
def applySteps (steps : List (DF → DF)) (df : DF) : DF :=
  steps.foldl (fun d s => s d) df

/-- The `try` body under a fault oracle: `fault i = true` means statement
number `i` raises, and — as in the source's `except` handler (lines 61-63)
— the dataframe reached at that point is returned as is. -/
def runTryBody (fault : Nat → Bool) : Nat → List (DF → DF) → DF → DF
  | _, [], df => df
  | i, s :: rest, df => if fault i then df else runTryBody fault (i + 1) rest (s df)

/-- Lines 25-63: `get_enhanced_technical_indicators`, with an explicit
fault oracle modelling exceptions thrown mid-computation. -/
def get_enhanced_technical_indicators (sq : ℚ → ℚ) (fault : Nat → Bool) (df : DF) : DF :=
  runTryBody fault 0 (indicatorSteps sq) df

/-- Left-pad with zeros to `n` characters (fractional part of a fixed-point
format). -/
def padZeros (s : String) (n : Nat) : String :=
  String.mk (List.replicate (n - s.length) '0') ++ s

/-- Python format spec `:.pf` modelled on exact rationals (round half away
from the even-rounding corner cases, which no claim exercises). -/
def fmtFixed (p : Nat) (q : ℚ) : String :=
  let m : ℤ := round (q * (10 : ℚ) ^ p)
  let sgn := if m < 0 then "-" else ""
  let n := m.natAbs
  if p = 0 then sgn ++ toString n
  else sgn ++ toString (n / 10 ^ p) ++ "." ++ padZeros (toString (n % 10 ^ p)) p

/-- `f"{v:.pf}" if pd.notna(v) else "N/A"` — the per-field sentinel pattern
of lines 175-183. -/
def fmtOpt (p : Nat) (v : Option ℚ) : String :=
  match v with
  | some q => fmtFixed p q
  | none => "N/A"

/-- Python `f"{cell}"` on a float cell that may be NaN: `NaN` prints as
`nan`; a number prints via its decimal representation. -/
def pyFloatStr : Option ℚ → String
  | some q => toString q
  | none => "nan"

/-- The display map returned by `get_clean_market_data` (lines 170-184),
with the original Chinese keys renamed to field identifiers:
收盘价 close, 涨跌幅 pct_chg, 成交量 vol, 换手率 turnover, 5/10/20日均线
ma5/ma10/ma20, MACD macd, RSI rsi, 布林上/中/下轨 bb_upper/bb_middle/bb_lower,
波动率 volatility. -/
structure Snap where
  close : String
  pct_chg : String
  vol : String
  turnover : String
  ma5 : String
  ma10 : String
  ma20 : String
  macd : String
  rsi : String
  bb_upper : String
  bb_middle : String
  bb_lower : String
  volatility : String

/-- Last cell of an optional `Option ℚ` column (the `latest` row's value;
`none` both when the column is absent and when the cell is NaN). -/
def lastOfOptCol (c : Option (List (Option ℚ))) : Option ℚ :=
  match c with
  | some l => match l.getLast? with
    | some v => v
    | none => none
  | none => none

/-- Last cell of a total column. -/
def lastOfRatCol (c : Option (List ℚ)) : Option ℚ :=
  match c with
  | some l => l.getLast?
  | none => none

/-- Placeholder bar for `iloc[-1]` (never reached: the empty frame is
rejected first). -/
def defaultBar : RawBar := ⟨0, 0, 0, 0, none⟩

/-- Lines 159-184: reject an empty frame with the no-data error, otherwise
compute the indicators, take the last (most recent) row and format the
display map.  `hk` selects the turnover path: for Hong Kong the separately
resolved `hkTurnover` string is used; for the mainland the latest bar's
own `turnover_rate` cell (`latest.get('turnover_rate', 'N/A')` then
`f"{...}%"`, line 168 — an absent cell therefore prints as `N/A%`). -/
def assembleSnapshot (sq : ℚ → ℚ) (hk : Bool) (bars : List RawBar) (hkTurnover : String) :
    Except String Snap :=
  if bars.isEmpty then .error "未获取到历史数据 (可能停牌)"
  else
    let df := get_enhanced_technical_indicators sq (fun _ => false) { bars := bars }
    let latest := df.bars.getLastD defaultBar
    let turnover := if hk then hkTurnover else
      match latest.turnover_rate with
      | some q => pyFloatStr (some q) ++ "%"
      | none => "N/A%"
    .ok {
      close := pyFloatStr (some latest.close)
      pct_chg := fmtFixed 2 latest.pct_chg ++ "%"
      vol := fmtFixed 2 (latest.vol / 10000) ++ "万手"
      turnover := turnover
      ma5 := fmtOpt 2 (lastOfOptCol df.ma5)
      ma10 := fmtOpt 2 (lastOfOptCol df.ma10)
      ma20 := fmtOpt 2 (lastOfOptCol df.ma20)
      macd := fmtOpt 4 (lastOfRatCol df.macd)
      rsi := fmtOpt 2 (lastOfOptCol df.rsi)
      bb_upper := fmtOpt 2 (lastOfOptCol df.bb_upper)
      bb_middle := fmtOpt 2 (lastOfOptCol df.bb_middle)
      bb_lower := fmtOpt 2 (lastOfOptCol df.bb_lower)
      volatility := fmtOpt 4 (lastOfOptCol df.volatility)
    }

/-- One row of `pro.hk_indicator` as consumed by the market-data path.
The frame always carries a `turnover_rate` column (line 147's membership
test is true); an individual cell may still be NaN (`none`). -/
structure HkIndRow where
  trade_date : Nat
  turnover_rate : Option ℚ

/-- The provider calls issued by `get_clean_market_data`, as oracles keyed
by the date arguments the source passes. -/
structure MarketProvider where
  hk_daily : Nat → Nat → Except String (List RawBar)
  hk_indicator : Nat → Except String (List HkIndRow)
  daily : Nat → Nat → Except String (List RawBar)

/-- Lines 121-186: `get_clean_market_data`.  For Hong Kong the turnover is
resolved from `pro.hk_indicator(start_date = now - 5 days)` (line 142):
a failed or empty fetch leaves the `"N/A"` default, otherwise the single
newest row is taken (`sort_values('trade_date', ascending=False).iloc[0]`)
and its cell is formatted with `f"{...}%"` whether or not it is NaN. -/
def get_clean_market_data (sq : ℚ → ℚ) (tokenOk : Bool) (code : String) (now days : Nat)
    (p : MarketProvider) : Except String Snap :=
  if !tokenOk then .error "Token无效"
  else if isHK code then
    match p.hk_daily (now - days) now with
    | .error e => .error ("港股接口异常: " ++ e)
    | .ok bars =>
      let turnover :=
        match p.hk_indicator (now - 5) with
        | .error _ => "N/A"
        | .ok rows =>
          match sortDescBy HkIndRow.trade_date rows with
          | [] => "N/A"
          | r :: _ => pyFloatStr r.turnover_rate ++ "%"
      assembleSnapshot sq true bars turnover
  else
    match p.daily (now - days) now with
    | .error e => .error ("行情获取异常: " ++ e)
    | .ok bars => assembleSnapshot sq false bars "N/A"

/-- Modelled from the spec (section 4.3, Hong-Kong path): scan the
indicator rows newest to oldest, skip days whose turnover value is
missing, and return the first non-missing value; `none` when no day in
the window has a value. -/
def specTurnoverScan (rows : List HkIndRow) : Option ℚ :=
  ((sortDescBy HkIndRow.trade_date rows).filterMap (fun r => r.turnover_rate)).head?

/-- One row of `pro.hk_basic`; `industry` is `none` when the column is
absent from the row (the `.get('industry', '港股')` default then applies). -/
structure HkBasicRow where
  industry : Option String

/-- One row of `pro.stock_basic` with `fields='name,industry'`. -/
structure AShareBasicRow where
  industry : String

/-- One row of `pro.hk_indicator` as consumed by the fundamental path
(`fields='pe_ttm,pb,mkt_cap'`; the date key is kept as the spec's
interface for the indicator source provides it). -/
structure HkValRow where
  trade_date : Nat
  pe_ttm : Option ℚ
  pb : Option ℚ
  mkt_cap : Option ℚ

/-- One row of `pro.daily_basic`. -/
structure DailyBasicRow where
  pe_ttm : Option ℚ
  pb : Option ℚ
  total_mv : Option ℚ

/-- The provider calls issued by `get_clean_fundamental_data`. -/
structure FundProvider where
  hk_basic : Except String (List HkBasicRow)
  hk_indicator : Nat → Except String (List HkValRow)
  stock_basic : Except String (List AShareBasicRow)
  daily_basic : Nat → Except String (List DailyBasicRow)

/-- The dict returned by `get_clean_fundamental_data` (lines 241-247):
PE(TTM) pe, PB pb, 总市值 mv, 所属行业 industry, 备注 note. -/
structure FundSnap where
  pe : String
  pb : String
  mv : String
  industry : String
  note : String

/-- Lines 200-204: the Hong-Kong industry lookup; any exception or an
empty frame leaves the `"未知"` initial value, an absent `industry` column
falls back to `'港股'`. -/
def hkResolveIndustry (b : Except String (List HkBasicRow)) : String :=
  match b with
  | .error _ => "未知"
  | .ok [] => "未知"
  | .ok (r :: _) => r.industry.getD "港股"

/-- Lines 207-224: the Hong-Kong valuation lookup over
`hk_indicator(start_date = now - 3 days)`: newest row of the frame, each
field kept at `"N/A"` when NaN, market cap divided by 1e8 into 亿. -/
def hkResolveValuation (v : Except String (List HkValRow)) : String × String × String :=
  match v with
  | .error _ => ("N/A", "N/A", "N/A")
  | .ok rows =>
    match sortDescBy HkValRow.trade_date rows with
    | [] => ("N/A", "N/A", "N/A")
    | r :: _ =>
      (fmtOpt 2 r.pe_ttm, fmtOpt 2 r.pb,
        match r.mkt_cap with
        | some c => fmtFixed 2 (c / 100000000) ++ "亿"
        | none => "N/A")

/-- Lines 228-229: mainland industry from the first `stock_basic` row,
`"未知"` when the frame is empty. -/
def aResolveIndustry (rows : List AShareBasicRow) : String :=
  match rows with
  | [] => "未知"
  | r :: _ => r.industry

/-- Lines 231-239: mainland valuation from `daily_basic` for today,
falling back to yesterday when today's frame is empty; any exception in
either fetch degrades all three fields to `"N/A"`; `total_mv` (万元) is
divided by 1e4 into 亿. -/
def aResolveValuation (today yesterday : Except String (List DailyBasicRow)) :
    String × String × String :=
  match today with
  | .error _ => ("N/A", "N/A", "N/A")
  | .ok t =>
    match (if t.isEmpty then yesterday else .ok t) with
    | .error _ => ("N/A", "N/A", "N/A")
    | .ok [] => ("N/A", "N/A", "N/A")
    | .ok (r :: _) =>
      (fmtOpt 2 r.pe_ttm, fmtOpt 2 r.pb,
        match r.total_mv with
        | some c => fmtFixed 2 (c / 10000) ++ "亿"
        | none => "N/A")

/-- Lines 188-249: `get_clean_fundamental_data`.  The Hong-Kong branch
wraps both lookups in their own `try`; the mainland branch wraps only the
valuation lookup — an exception in `pro.stock_basic` (line 228) escapes to
the outer handler and aborts the whole resolution. -/
def get_clean_fundamental_data (tokenOk : Bool) (code : String) (now : Nat)
    (p : FundProvider) : Except String FundSnap :=
  if !tokenOk then .error "Token无效"
  else if isHK code then
    let v := hkResolveValuation (p.hk_indicator (now - 3))
    .ok { pe := v.1, pb := v.2.1, mv := v.2.2,
          industry := hkResolveIndustry p.hk_basic, note := "港股数据(VIP源)" }
  else
    match p.stock_basic with
    | .error e => .error ("基本面异常: " ++ e)
    | .ok basic =>
      let v := aResolveValuation (p.daily_basic now) (p.daily_basic (now - 1))
      .ok { pe := v.1, pb := v.2.1, mv := v.2.2,
            industry := aResolveIndustry basic, note := "A股数据" }

/-- The dict returned by `get_market_environment_data`:
市场指数涨跌幅 chg, 市场情绪 sentiment. -/
structure MktOut where
  chg : String
  sentiment : String

/-- The `pro.index_daily` oracle: index code, start date, end date, to the
`pct_chg` column newest-first (the source reads `df.iloc[0]`). -/
structure IndexProvider where
  index_daily : String → Nat → Nat → Except String (List ℚ)

/-- Line 272: `"乐观" if change > 1 else ("悲观" if change < -1 else "中性")`
(optimistic / pessimistic / neutral). -/
def classifySentiment (change : ℚ) : String :=
  if change > 1 then "乐观" else if change < -1 then "悲观" else "中性"

/-- Lines 251-276: `get_market_environment_data`.  Benchmark is HSI for
Hong Kong, 399300.SZ otherwise; an empty HSI frame or a raising primary
fetch falls back to 399300.SZ; if in the end no row is available (every
fetch failed or returned empty) the function returns the
`{"市场指数涨跌幅": "N/A", "市场情绪": "未知"}` dict of line 276. -/
def get_market_environment_data (code : String) (now : Nat) (p : IndexProvider) : MktOut :=
  let index_code := if isHK code then "HSI" else "399300.SZ"
  let dfE : Except String (List ℚ) :=
    match p.index_daily index_code (now - 7) now with
    | .ok df => if df.isEmpty && isHK code then p.index_daily "399300.SZ" (now - 7) now
                else .ok df
    | .error _ => p.index_daily "399300.SZ" (now - 7) now
  match dfE with
  | .ok (change :: _) => { chg := fmtFixed 2 change ++ "%", sentiment := classifySentiment change }
  | _ => { chg := "N/A", sentiment := "未知" }

/-- Modelled from the spec (section 4.2): the standard recursive EMA step
`y = y_prev + α * (x - y_prev)` with smoothing factor `α = 2 / (N + 1)`. -/
def specEMAstep (n : Nat) (prev x : ℚ) : ℚ := prev + (2 / ((n : ℚ) + 1)) * (x - prev)

/-- Modelled from the spec: the EMA recursion after the seed. -/
def specEMArun (n : Nat) (y : ℚ) : List ℚ → List ℚ
  | [] => []
  | x :: xs => specEMAstep n y x :: specEMArun n (specEMAstep n y x) xs

/-- Modelled from the spec: EMA over a series, seeded by the first
observation, defined from the first bar onward. -/
def specEMA (n : Nat) : List ℚ → List ℚ
  | [] => []
  | x :: xs => x :: specEMArun n x xs

/-- Strictly ascending trade dates (the claims' "normalized ascending
series" hypothesis), as a decidable check. -/
def datesAscending : List RawBar → Bool
  | [] => true
  | [_] => true
  | a :: b :: rest => decide (a.trade_date < b.trade_date) && datesAscending (b :: rest)

/-- Close column after the sort of line 29. -/
def sortedCloses (bars : List RawBar) : List ℚ :=
  (sortAscBy RawBar.trade_date bars).map RawBar.close

/-- pct_chg column after the sort of line 29. -/
def sortedPcts (bars : List RawBar) : List ℚ :=
  (sortAscBy RawBar.trade_date bars).map RawBar.pct_chg

/-- The `dif` series of line 40 over the sorted closes. -/
def difList (bars : List RawBar) : List ℚ :=
  List.zipWith (fun a b => a - b) (ewmMean 12 (sortedCloses bars)) (ewmMean 26 (sortedCloses bars))

/-- Concrete Hong-Kong bar used in example scenarios. -/
def exBarHK : RawBar := ⟨20240110, 10, 1, 100, none⟩

/-- Concrete indicator frame: the newest day (20240110) has a missing
turnover cell, the older day (20240109) has the value 3. -/
def exIndRows : List HkIndRow := [⟨20240109, some 3⟩, ⟨20240110, none⟩]

/-- Provider for the Hong-Kong turnover scenario. -/
def exProvC1 : MarketProvider :=
  { hk_daily := fun _ _ => .ok [exBarHK]
    hk_indicator := fun _ => .ok exIndRows
    daily := fun _ _ => .error "unused" }

/-- Provider whose mainland daily fetch returns an empty frame. -/
def exProvC6 : MarketProvider :=
  { hk_daily := fun _ _ => .ok []
    hk_indicator := fun _ => .error "unused"
    daily := fun _ _ => .ok [] }

/-- Hong-Kong provider: industry resolvable, valuation fetch raising. -/
def exFundProvHkValFail : FundProvider :=
  { hk_basic := .ok [⟨some "科技"⟩]
    hk_indicator := fun _ => .error "timeout"
    stock_basic := .error "unused"
    daily_basic := fun _ => .error "unused" }

/-- Hong-Kong provider: industry fetch raising, valuation resolvable. -/
def exFundProvHkIndFail : FundProvider :=
  { hk_basic := .error "timeout"
    hk_indicator := fun _ => .ok [⟨20240109, some 10, some 2, some 1000000000⟩]
    stock_basic := .error "unused"
    daily_basic := fun _ => .error "unused" }

/-- Mainland provider: industry resolvable, valuation fetch raising. -/
def exFundProvAValFail : FundProvider :=
  { hk_basic := .error "unused"
    hk_indicator := fun _ => .error "unused"
    stock_basic := .ok [⟨"银行"⟩]
    daily_basic := fun _ => .error "timeout" }

/-- Mainland provider: industry fetch raising, valuation record available —
the decisive scenario for field-level independence. -/
def exFundProvAIndFail : FundProvider :=
  { hk_basic := .error "unused"
    hk_indicator := fun _ => .error "unused"
    stock_basic := .error "network down"
    daily_basic := fun _ => .ok [⟨some 10, some 2, some 500000⟩] }

/-- Yesterday's daily-fundamentals record used in the fallback scenario. -/
def exValRowC8 : DailyBasicRow := ⟨some (153 / 10), some 2, some 500000⟩

/-- Mainland provider: no record for today (20240110), a record for
yesterday (20240109). -/
def exFundProvC8 : FundProvider :=
  { hk_basic := .error "unused"
    hk_indicator := fun _ => .error "unused"
    stock_basic := .ok [⟨"银行"⟩]
    daily_basic := fun d => if d = 20240110 then .ok [] else .ok [exValRowC8] }

/-- Benchmark provider with every fetch failing. -/
def exIdxProvFail : IndexProvider := { index_daily := fun _ _ _ => .error "down" }

/-- A benchmark fetch result that yields no usable row: the call raised,
or the frame is empty. -/
def NoUsable (e : Except String (List ℚ)) : Prop := (∃ s, e = .error s) ∨ e = .ok []

/-- Fifteen ascending closes, enough for one defined RSI cell. -/
def exClose15 : List ℚ := [1, 2, 3, 4, 5, 6, 7, 8, 9, 10, 11, 12, 13, 14, 15]

/-- Three ascending bars — too short for every windowed indicator. -/
def exBarsShort : List RawBar :=
  [⟨1, 10, 1, 100, none⟩, ⟨2, 11, 1, 100, none⟩, ⟨3, 12, 1, 100, none⟩]

theorem applySteps_cons (s : DF → DF) (rest : List (DF → DF)) (df : DF) :
    applySteps (s :: rest) df = applySteps rest (s df) := rfl

theorem runTryBody_noFault (steps : List (DF → DF)) :
    ∀ (i : Nat) (df : DF), runTryBody (fun _ => false) i steps df = applySteps steps df := by
  induction steps with
  | nil => intro i df; rfl
  | cons s rest ih =>
    intro i df
    show runTryBody (fun _ => false) (i + 1) rest (s df) = _
    rw [applySteps_cons]
    exact ih (i + 1) (s df)

theorem runTryBody_reaches (fault : Nat → Bool) (steps : List (DF → DF)) :
    ∀ (i : Nat) (df : DF), ∃ k, k ≤ steps.length ∧
      runTryBody fault i steps df = applySteps (steps.take k) df := by
  induction steps with
  | nil => intro i df; exact ⟨0, Nat.le_refl 0, rfl⟩
  | cons s rest ih =>
    intro i df
    by_cases h : fault i
    · refine ⟨0, Nat.zero_le _, ?_⟩
      simp [runTryBody, h, applySteps]
    · obtain ⟨k, hk, he⟩ := ih (i + 1) (s df)
      refine ⟨k + 1, by simpa using hk, ?_⟩
      simpa [runTryBody, h, List.take_succ_cons, applySteps_cons] using he

theorem engine_noFault_eq (sq : ℚ → ℚ) (bars : List RawBar) :
    get_enhanced_technical_indicators sq (fun _ => false) { bars := bars } =
      { bars := sortAscBy RawBar.trade_date bars
        ma5 := some (rollingMean 5 (sortedCloses bars))
        ma10 := some (rollingMean 10 (sortedCloses bars))
        ma20 := some (rollingMean 20 (sortedCloses bars))
        dif := some (difList bars)
        dea := some (ewmMean 9 (difList bars))
        macd := some (List.zipWith (fun a b => (a - b) * 2) (difList bars)
          (ewmMean 9 (difList bars)))
        rsi := some (rsiCol (sortedCloses bars))
        bb_middle := some (rollingMean 20 (sortedCloses bars))
        bb_upper := some (zipOptWith (fun a s => a + 2 * s) (rollingMean 20 (sortedCloses bars))
          (rollingStd sq 20 (sortedCloses bars)))
        bb_lower := some (zipOptWith (fun a s => a - 2 * s) (rollingMean 20 (sortedCloses bars))
          (rollingStd sq 20 (sortedCloses bars)))
        volatility := some (rollingStd sq 20 (sortedPcts bars)) } := rfl

theorem length_insertAscBy {α : Type} (key : α → Nat) (r : α) (l : List α) :
    (insertAscBy key r l).length = l.length + 1 := by
  induction l with
  | nil => rfl
  | cons x xs ih =>
    by_cases h : key r ≤ key x <;> simp [insertAscBy, h, ih]

theorem length_sortAscBy {α : Type} (key : α → Nat) (l : List α) :
    (sortAscBy key l).length = l.length := by
  induction l with
  | nil => rfl
  | cons x xs ih => simp [sortAscBy, List.foldr] at ih ⊢; rw [length_insertAscBy, ih]

theorem length_sortedCloses (bars : List RawBar) : (sortedCloses bars).length = bars.length := by
  simp [sortedCloses, length_sortAscBy]

theorem length_sortedPcts (bars : List RawBar) : (sortedPcts bars).length = bars.length := by
  simp [sortedPcts, length_sortAscBy]

theorem length_rollingMean (w : Nat) (xs : List ℚ) : (rollingMean w xs).length = xs.length := by
  simp [rollingMean]

theorem length_rollingStd (sq : ℚ → ℚ) (w : Nat) (xs : List ℚ) :
    (rollingStd sq w xs).length = xs.length := by
  simp [rollingStd]

theorem length_diffsFrom (prev : ℚ) (xs : List ℚ) : (diffsFrom prev xs).length = xs.length := by
  induction xs generalizing prev with
  | nil => rfl
  | cons x xs ih => simp [diffsFrom, ih]

theorem length_diffCol (xs : List ℚ) : (diffCol xs).length = xs.length := by
  cases xs with
  | nil => rfl
  | cons x xs => simp [diffCol, length_diffsFrom]

theorem length_gainCol (delta : List (Option ℚ)) : (gainCol delta).length = delta.length := by
  simp [gainCol]

theorem length_lossCol (delta : List (Option ℚ)) : (lossCol delta).length = delta.length := by
  simp [lossCol]

theorem length_ewmFrom (a y : ℚ) (xs : List ℚ) : (ewmFrom a y xs).length = xs.length := by
  induction xs generalizing y with
  | nil => rfl
  | cons x xs ih => simp [ewmFrom, ih]

theorem length_ewmMean (n : Nat) (xs : List ℚ) : (ewmMean n xs).length = xs.length := by
  cases xs with
  | nil => rfl
  | cons x xs => simp [ewmMean, length_ewmFrom]

theorem length_specEMArun (n : Nat) (y : ℚ) (xs : List ℚ) :
    (specEMArun n y xs).length = xs.length := by
  induction xs generalizing y with
  | nil => rfl
  | cons x xs ih => simp [specEMArun, ih]

theorem length_specEMA (n : Nat) (xs : List ℚ) : (specEMA n xs).length = xs.length := by
  cases xs with
  | nil => rfl
  | cons x xs => simp [specEMA, length_specEMArun]

theorem rollingMean_getElem_ge (w : Nat) (xs : List ℚ) (i : Nat) (h : i < xs.length)
    (hw : w ≤ i + 1) :
    (rollingMean w xs)[i]? = some (some ((windowSlice w xs i).sum / (w : ℚ))) := by
  rw [rollingMean, List.getElem?_map, List.getElem?_range h]
  simp [hw]

theorem rollingMean_getElem_lt (w : Nat) (xs : List ℚ) (i : Nat) (h : i < xs.length)
    (hw : i + 1 < w) : (rollingMean w xs)[i]? = some none := by
  rw [rollingMean, List.getElem?_map, List.getElem?_range h]
  simp [if_neg (by omega : ¬ w ≤ i + 1)]

theorem rollingStd_getElem_lt (sq : ℚ → ℚ) (w : Nat) (xs : List ℚ) (i : Nat)
    (h : i < xs.length) (hw : i + 1 < w) : (rollingStd sq w xs)[i]? = some none := by
  rw [rollingStd, List.getElem?_map, List.getElem?_range h]
  simp [if_neg (by omega : ¬ w ≤ i + 1)]

theorem getLast?_rollingMean_short (w : Nat) (xs : List ℚ) (h0 : xs ≠ [])
    (hw : xs.length < w) : (rollingMean w xs).getLast? = some none := by
  have hp : 0 < xs.length := List.length_pos.mpr h0
  rw [List.getLast?_eq_getElem?, length_rollingMean]
  exact rollingMean_getElem_lt w xs (xs.length - 1) (by omega) (by omega)

theorem getLast?_rsiCol_short (cs : List ℚ) (h0 : cs ≠ []) (hw : cs.length < 14) :
    (rsiCol cs).getLast? = some none := by
  have hp : 0 < cs.length := List.length_pos.mpr h0
  have hg : (gainAvgCol cs).length = cs.length := by
    simp [gainAvgCol, length_rollingMean, length_gainCol, length_diffCol]
  have hl : (lossAvgCol cs).length = cs.length := by
    simp [lossAvgCol, length_rollingMean, length_lossCol, length_diffCol]
  have hlen : (rsiCol cs).length = cs.length := by
    simp [rsiCol, List.length_zipWith, hg, hl]
  rw [List.getLast?_eq_getElem?, hlen, rsiCol, List.getElem?_zipWith]
  have h1 : (gainAvgCol cs)[cs.length - 1]? = some none := by
    rw [gainAvgCol]
    exact rollingMean_getElem_lt _ _ _ (by rw [length_gainCol, length_diffCol]; omega) (by omega)
  have h2 : (lossAvgCol cs)[cs.length - 1]? = some none := by
    rw [lossAvgCol]
    exact rollingMean_getElem_lt _ _ _ (by rw [length_lossCol, length_diffCol]; omega) (by omega)
  rw [h1, h2]
  rfl

theorem getLast?_bbBand_short (f : ℚ → ℚ → ℚ) (sq : ℚ → ℚ) (cs : List ℚ) (h0 : cs ≠ [])
    (hw : cs.length < 20) :
    (zipOptWith f (rollingMean 20 cs) (rollingStd sq 20 cs)).getLast? =
      some none := by
  have hp : 0 < cs.length := List.length_pos.mpr h0
  have hlen : (zipOptWith f (rollingMean 20 cs) (rollingStd sq 20 cs)).length =
      cs.length := by
    simp [zipOptWith, List.length_zipWith, length_rollingMean, length_rollingStd]
  rw [List.getLast?_eq_getElem?, hlen, zipOptWith, List.getElem?_zipWith,
    rollingMean_getElem_lt 20 cs (cs.length - 1) (by omega) (by omega),
    rollingStd_getElem_lt sq 20 cs (cs.length - 1) (by omega) (by omega)]

theorem getLast?_rollingStd_short (sq : ℚ → ℚ) (w : Nat) (xs : List ℚ) (h0 : xs ≠ [])
    (hw : xs.length < w) : (rollingStd sq w xs).getLast? = some none := by
  have hp : 0 < xs.length := List.length_pos.mpr h0
  rw [List.getLast?_eq_getElem?, length_rollingStd]
  exact rollingStd_getElem_lt sq w xs (xs.length - 1) (by omega) (by omega)

/-- C10: `get_enhanced_technical_indicators` never propagates a fault: for
every input dataframe and every fault oracle (an exception thrown at any
statement of the `try` block), the function returns the dataframe in the
partially-augmented state reached by the successfully executed prefix of
statements — possibly with some or all indicator columns still absent —
rather than an error. -/
theorem claim_C10_fault_swallowing (sq : ℚ → ℚ) (fault : Nat → Bool) (df : DF) :
    ∃ k, k ≤ (indicatorSteps sq).length ∧
      get_enhanced_technical_indicators sq fault df =
        applySteps (List.take k (indicatorSteps sq)) df :=
  runTryBody_reaches fault (indicatorSteps sq) 0 df

/-- C4: the market sentiment classifier of line 272 returns 乐观
(optimistic) iff the benchmark change exceeds 1, 悲观 (pessimistic) iff it
is below -1, and 中性 (neutral) exactly on the closed interval [-1, 1];
in particular 1.00 and -1.00 are neutral, 1.01 optimistic, -1.01
pessimistic. -/
theorem claim_C4_sentiment_thresholds :
    (∀ c : ℚ, (classifySentiment c = "乐观" ↔ 1 < c) ∧
      (classifySentiment c = "悲观" ↔ c < -1) ∧
      (classifySentiment c = "中性" ↔ -1 ≤ c ∧ c ≤ 1)) ∧
    classifySentiment 1 = "中性" ∧ classifySentiment (-1) = "中性" ∧
    classifySentiment (101 / 100) = "乐观" ∧ classifySentiment (-101 / 100) = "悲观" := by
  refine ⟨fun c => ?_, ?_, ?_, ?_, ?_⟩
  · unfold classifySentiment
    split_ifs with h1 h2
    · refine ⟨⟨fun _ => h1, fun _ => rfl⟩, ⟨fun hs => absurd hs (by decide), ?_⟩,
        ⟨fun hs => absurd hs (by decide), ?_⟩⟩
      · intro hlt; exact absurd h1 (by linarith)
      · intro hiv; exact absurd h1 (by linarith [hiv.2])
    · refine ⟨⟨fun hs => absurd hs (by decide), ?_⟩, ⟨fun _ => h2, fun _ => rfl⟩,
        ⟨fun hs => absurd hs (by decide), ?_⟩⟩
      · intro hgt; exact absurd h2 (by linarith)
      · intro hiv; exact absurd h2 (by linarith [hiv.1])
    · refine ⟨⟨fun hs => absurd hs (by decide), fun hgt => absurd hgt h1⟩,
        ⟨fun hs => absurd hs (by decide), fun hlt => absurd hlt h2⟩,
        ⟨fun _ => ⟨by linarith [not_lt.mp h2], by linarith [not_lt.mp h1]⟩, fun _ => rfl⟩⟩
  · norm_num [classifySentiment]
  · norm_num [classifySentiment]
  · norm_num [classifySentiment]
  · norm_num [classifySentiment]

/-- C6: a mandatory price-bar fetch that yields zero bars makes
`get_clean_market_data` return the explicit no-data error dict
(`{"错误": "未获取到历史数据 (可能停牌)"}`) before any indicator
computation, on both the Hong-Kong and the mainland path; no indicator
field is produced. -/
theorem claim_C6_empty_series (sq : ℚ → ℚ) (code : String) (now days : Nat)
    (p : MarketProvider) :
    (isHK code = true → p.hk_daily (now - days) now = .ok [] →
      get_clean_market_data sq true code now days p = .error "未获取到历史数据 (可能停牌)") ∧
    (isHK code = false → p.daily (now - days) now = .ok [] →
      get_clean_market_data sq true code now days p = .error "未获取到历史数据 (可能停牌)") := by
  constructor
  · intro hhk hd
    simp [get_clean_market_data, hhk, hd, assembleSnapshot]
  · intro hhk hd
    simp [get_clean_market_data, hhk, hd, assembleSnapshot]

/-- C6 witness: a mainland request with an empty daily frame reports the
no-data error. -/
theorem claim_C6_empty_series_witness :
    get_clean_market_data (fun q => q) true "600000.SH" 20240110 90 exProvC6 =
      .error "未获取到历史数据 (可能停牌)" :=
  (claim_C6_empty_series (fun q => q) "600000.SH" 20240110 90 exProvC6).2 (by decide) rfl

/-- C9 counterexample: with every benchmark fetch failing, the market
context result is the `{"市场指数涨跌幅": "N/A", "市场情绪": "未知"}` dict of
line 276 — not the claimed change = "0.00%" with neutral sentiment. -/
theorem claim_C9_counterexample :
    get_market_environment_data "600000.SH" 20240110 exIdxProvFail =
      { chg := "N/A", sentiment := "未知" } ∧
    "N/A" ≠ "0.00%" ∧ "未知" ≠ "中性" :=
  ⟨rfl, by decide, by decide⟩

/-- C9 amended: when no benchmark data is obtainable at all (every
benchmark fetch raises or returns an empty frame), the classifier returns
change = "N/A" and sentiment = "未知" (unknown) — it never fails the
overall request, but it does not substitute 0.00%/neutral. -/
theorem claim_C9_amended (code : String) (now : Nat) (p : IndexProvider)
    (h1 : NoUsable (p.index_daily (if isHK code then "HSI" else "399300.SZ") (now - 7) now))
    (h2 : NoUsable (p.index_daily "399300.SZ" (now - 7) now)) :
    get_market_environment_data code now p = { chg := "N/A", sentiment := "未知" } := by
  cases hhk : isHK code with
  | true =>
    rw [hhk] at h1
    simp only [if_true, reduceIte] at h1
    rcases h1 with ⟨s, hs⟩ | hs <;> rcases h2 with ⟨t, ht⟩ | ht <;>
      simp [get_market_environment_data, hhk, hs, ht]
  | false =>
    rw [hhk] at h1
    simp only [Bool.false_eq_true, reduceIte] at h1
    rcases h1 with ⟨s, hs⟩ | hs <;>
      simp [get_market_environment_data, hhk, hs]

/-- C9 amended witness: the all-fetches-fail scenario instantiated. -/
theorem claim_C9_amended_witness :
    get_market_environment_data "00700.HK" 20240110 exIdxProvFail =
      { chg := "N/A", sentiment := "未知" } :=
  claim_C9_amended "00700.HK" 20240110 exIdxProvFail (Or.inl ⟨"down", rfl⟩)
    (Or.inl ⟨"down", rfl⟩)

/-- C1 counterexample: a Hong-Kong instrument whose daily-bar fetch
succeeds, with an indicator window whose newest day (20240110) has a
missing turnover value and whose previous day (20240109) carries the value
3.  The claim says the resolution skips the missing newest day and
returns the older value (formatted `pyFloatStr (some 3) ++ "%"`), or
`"N/A"` if none exists; the code instead formats the newest row's missing
cell, producing `"nan%"` — neither the claimed value nor the sentinel. -/
theorem claim_C1_counterexample :
    Except.map Snap.turnover
        (get_clean_market_data (fun q => q) true "00700.HK" 20240110 90 exProvC1) =
      .ok "nan%" ∧
    specTurnoverScan exIndRows = some 3 ∧
    "nan%" ≠ pyFloatStr (some 3) ++ "%" ∧ "nan%" ≠ "N/A" :=
  ⟨rfl, rfl, by decide, by decide⟩

/-- C1 amended: for a Hong-Kong instrument whose daily-bar fetch succeeds
with a nonempty frame, turnover resolution queries the indicator source
over a 5-calendar-day trailing window (line 142) and uses only the single
newest row of the result: a failed fetch or an empty frame leaves the
`"N/A"` sentinel, and otherwise the newest row's turnover cell is
formatted with `f"{...}%"` whether or not the cell is missing (a missing
cell yields `"nan%"`); older rows are never consulted and the operation
never raises (the snapshot is still assembled, `.ok`). -/
theorem claim_C1_amended (sq : ℚ → ℚ) (code : String) (now days : Nat) (p : MarketProvider)
    (bars : List RawBar) (hhk : isHK code = true)
    (hd : p.hk_daily (now - days) now = .ok bars) (hne : bars ≠ []) :
    (∀ e, p.hk_indicator (now - 5) = .error e →
      Except.map Snap.turnover (get_clean_market_data sq true code now days p) = .ok "N/A") ∧
    (p.hk_indicator (now - 5) = .ok [] →
      Except.map Snap.turnover (get_clean_market_data sq true code now days p) = .ok "N/A") ∧
    (∀ rows r rest, p.hk_indicator (now - 5) = .ok rows →
      sortDescBy HkIndRow.trade_date rows = r :: rest →
      Except.map Snap.turnover (get_clean_market_data sq true code now days p) =
        .ok (pyFloatStr r.turnover_rate ++ "%")) := by
  have hass : ∀ t, Except.map Snap.turnover (assembleSnapshot sq true bars t) = .ok t := by
    intro t
    cases bars with
    | nil => exact absurd rfl hne
    | cons b bs => simp [assembleSnapshot, Except.map]
  refine ⟨?_, ?_, ?_⟩
  · intro e hi
    simp only [get_clean_market_data, Bool.not_true, Bool.false_eq_true, if_false, hhk,
      if_true, reduceIte, hd, hi]
    exact hass "N/A"
  · intro hi
    simp only [get_clean_market_data, Bool.not_true, Bool.false_eq_true, if_false, hhk,
      if_true, reduceIte, hd, hi, sortDescBy, List.foldr]
    exact hass "N/A"
  · intro rows r rest hi hsort
    simp only [get_clean_market_data, Bool.not_true, Bool.false_eq_true, if_false, hhk,
      if_true, reduceIte, hd, hi, hsort]
    exact hass (pyFloatStr r.turnover_rate ++ "%")

/-- C1 amended witness: the scenario of the counterexample run through the
amended statement — the newest row ⟨20240110, none⟩ wins and its missing
cell is formatted. -/
theorem claim_C1_amended_witness :
    Except.map Snap.turnover
        (get_clean_market_data (fun q => q) true "00700.HK" 20240110 90 exProvC1) =
      .ok (pyFloatStr (none : Option ℚ) ++ "%") :=
  (claim_C1_amended (fun q => q) "00700.HK" 20240110 90 exProvC1 [exBarHK] (by decide) rfl
    (List.cons_ne_nil _ _)).2.2 exIndRows ⟨20240110, none⟩ [⟨20240109, some 3⟩] rfl rfl

/-- C7 counterexample: a mainland instrument whose industry fetch
(`pro.stock_basic`, line 228 — not wrapped in an inner `try`) raises while
a valuation record is available.  The claim says the valuation fields stay
resolvable; the code instead aborts the whole fundamental resolution with
the outer-handler error dict, producing no field at all. -/
theorem claim_C7_counterexample :
    get_clean_fundamental_data true "600000.SH" 20240110 exFundProvAIndFail =
      .error ("基本面异常: " ++ "network down") ∧
    exFundProvAIndFail.daily_basic 20240110 = .ok [⟨some 10, some 2, some 500000⟩] :=
  ⟨rfl, rfl⟩

/-- C7 amended: fundamental-field degradation is independent except on the
mainland industry path.  (a) For Hong Kong, a raising valuation fetch
leaves the resolved industry intact and only P/E, P/B and market cap at
`"N/A"`; (b) for Hong Kong, a raising industry fetch leaves industry at
`"未知"` while valuation still resolves from its own fetch; (c) for the
mainland, a raising valuation fetch leaves the resolved industry intact
and the three valuation fields at `"N/A"`; but (d) for the mainland, a
raising industry fetch (`pro.stock_basic` is not wrapped in an inner
`try`) aborts the whole resolution with the error dict. -/
theorem claim_C7_amended (code : String) (now : Nat) (p : FundProvider) :
    (∀ e, isHK code = true → p.hk_indicator (now - 3) = .error e →
      get_clean_fundamental_data true code now p =
        .ok { pe := "N/A", pb := "N/A", mv := "N/A",
              industry := hkResolveIndustry p.hk_basic, note := "港股数据(VIP源)" }) ∧
    (∀ e, isHK code = true → p.hk_basic = .error e →
      get_clean_fundamental_data true code now p =
        .ok { pe := (hkResolveValuation (p.hk_indicator (now - 3))).1,
              pb := (hkResolveValuation (p.hk_indicator (now - 3))).2.1,
              mv := (hkResolveValuation (p.hk_indicator (now - 3))).2.2,
              industry := "未知", note := "港股数据(VIP源)" }) ∧
    (∀ e rows, isHK code = false → p.stock_basic = .ok rows → p.daily_basic now = .error e →
      get_clean_fundamental_data true code now p =
        .ok { pe := "N/A", pb := "N/A", mv := "N/A",
              industry := aResolveIndustry rows, note := "A股数据" }) ∧
    (∀ e, isHK code = false → p.stock_basic = .error e →
      get_clean_fundamental_data true code now p = .error ("基本面异常: " ++ e)) := by
  refine ⟨?_, ?_, ?_, ?_⟩
  · intro e hhk hv
    simp [get_clean_fundamental_data, hhk, hv, hkResolveValuation]
  · intro e hhk hb
    simp [get_clean_fundamental_data, hhk, hb, hkResolveIndustry]
  · intro e rows hhk hb hv
    simp [get_clean_fundamental_data, hhk, hb, hv, aResolveValuation]
  · intro e hhk hb
    simp [get_clean_fundamental_data, hhk, hb]

/-- C7 amended witness: the four degradation scenarios instantiated with
concrete providers. -/
theorem claim_C7_amended_witness :
    get_clean_fundamental_data true "00700.HK" 20240110 exFundProvHkValFail =
      .ok { pe := "N/A", pb := "N/A", mv := "N/A", industry := "科技",
            note := "港股数据(VIP源)" } ∧
    get_clean_fundamental_data true "00700.HK" 20240110 exFundProvHkIndFail =
      .ok { pe := fmtOpt 2 (some 10), pb := fmtOpt 2 (some 2),
            mv := fmtFixed 2 ((1000000000 : ℚ) / 100000000) ++ "亿", industry := "未知",
            note := "港股数据(VIP源)" } ∧
    get_clean_fundamental_data true "600000.SH" 20240110 exFundProvAValFail =
      .ok { pe := "N/A", pb := "N/A", mv := "N/A", industry := "银行", note := "A股数据" } ∧
    get_clean_fundamental_data true "600000.SH" 20240110 exFundProvAIndFail =
      .error ("基本面异常: " ++ "network down") :=
  ⟨(claim_C7_amended "00700.HK" 20240110 exFundProvHkValFail).1 "timeout" (by decide) rfl,
   (claim_C7_amended "00700.HK" 20240110 exFundProvHkIndFail).2.1 "timeout" (by decide) rfl,
   (claim_C7_amended "600000.SH" 20240110 exFundProvAValFail).2.2.1 "timeout" [⟨"银行"⟩]
     (by decide) rfl rfl,
   (claim_C7_amended "600000.SH" 20240110 exFundProvAIndFail).2.2.2 "network down"
     (by decide) rfl⟩

/-- C8: a mainland instrument with no daily-fundamentals record for today
but one for yesterday resolves P/E(TTM), P/B and market cap from
yesterday's record (lines 231-239), not to the `"N/A"` sentinel. -/
theorem claim_C8_yesterday_fallback (code : String) (now : Nat) (p : FundProvider)
    (rows : List AShareBasicRow) (r : DailyBasicRow) (rest : List DailyBasicRow)
    (hm : isHK code = false) (hb : p.stock_basic = .ok rows)
    (ht : p.daily_basic now = .ok []) (hy : p.daily_basic (now - 1) = .ok (r :: rest)) :
    get_clean_fundamental_data true code now p =
      .ok { pe := fmtOpt 2 r.pe_ttm, pb := fmtOpt 2 r.pb,
            mv := match r.total_mv with
              | some c => fmtFixed 2 (c / 10000) ++ "亿"
              | none => "N/A",
            industry := aResolveIndustry rows, note := "A股数据" } := by
  simp [get_clean_fundamental_data, hm, hb, aResolveValuation, ht, hy]

/-- C8 witness: today 20240110 empty, yesterday 20240109 carrying
pe_ttm = 15.3, pb = 2, total_mv = 500000 (万元). -/
theorem claim_C8_yesterday_fallback_witness :
    get_clean_fundamental_data true "600000.SH" 20240110 exFundProvC8 =
      .ok { pe := fmtOpt 2 (some (153 / 10)), pb := fmtOpt 2 (some 2),
            mv := fmtFixed 2 ((500000 : ℚ) / 10000) ++ "亿", industry := "银行",
            note := "A股数据" } :=
  claim_C8_yesterday_fallback "600000.SH" 20240110 exFundProvC8 [⟨"银行"⟩] exValRowC8 []
    (by decide) rfl rfl rfl

theorem ewmFrom_eq_specEMArun (n : Nat) (xs : List ℚ) : ∀ y : ℚ,
    ewmFrom (2 / ((n : ℚ) + 1)) y xs = specEMArun n y xs := by
  induction xs with
  | nil => intro y; rfl
  | cons x xs ih =>
    intro y
    have hstep : (1 - 2 / ((n : ℚ) + 1)) * y + 2 / ((n : ℚ) + 1) * x = specEMAstep n y x := by
      unfold specEMAstep; ring
    simp only [ewmFrom, specEMArun, hstep]
    rw [ih]

theorem ewmMean_eq_specEMA (n : Nat) (xs : List ℚ) : ewmMean n xs = specEMA n xs := by
  cases xs with
  | nil => rfl
  | cons x xs =>
    simp only [ewmMean, specEMA]
    rw [ewmFrom_eq_specEMArun]

/-- C5: the engine's MACD triad (lines 37-42) satisfies
dif = EMA12(close) − EMA26(close) with each EMA equal to the spec's
standard recursion (seeded by the first close, smoothing 2/(N+1), no bias
adjustment), dea = EMA9(dif), macd = 2 × (dif − dea); and every column of
the triad carries a value at every bar (length = number of bars — no
undefined warm-up period). -/
theorem claim_C5_macd_structure (sq : ℚ → ℚ) (bars : List RawBar) :
    (get_enhanced_technical_indicators sq (fun _ => false) { bars := bars }).dif =
      some (List.zipWith (fun a b => a - b) (specEMA 12 (sortedCloses bars))
        (specEMA 26 (sortedCloses bars))) ∧
    (get_enhanced_technical_indicators sq (fun _ => false) { bars := bars }).dea =
      some (specEMA 9 (difList bars)) ∧
    (get_enhanced_technical_indicators sq (fun _ => false) { bars := bars }).macd =
      some (List.zipWith (fun a b => 2 * (a - b)) (difList bars) (specEMA 9 (difList bars))) ∧
    (difList bars).length = bars.length ∧
    (specEMA 9 (difList bars)).length = bars.length ∧
    (List.zipWith (fun a b => 2 * (a - b)) (difList bars)
      (specEMA 9 (difList bars))).length = bars.length := by
  have hdiflen : (difList bars).length = bars.length := by
    simp [difList, List.length_zipWith, length_ewmMean, length_sortedCloses]
  have hf : (fun (a b : ℚ) => (a - b) * 2) = fun a b => 2 * (a - b) := by
    funext a b; ring
  rw [engine_noFault_eq]
  refine ⟨?_, ?_, ?_, hdiflen, ?_, ?_⟩
  · show some (difList bars) = _
    simp only [difList]
    rw [ewmMean_eq_specEMA, ewmMean_eq_specEMA]
  · show some (ewmMean 9 (difList bars)) = _
    rw [ewmMean_eq_specEMA]
  · show some (List.zipWith (fun a b => (a - b) * 2) (difList bars)
      (ewmMean 9 (difList bars))) = _
    rw [ewmMean_eq_specEMA, hf]
  · rw [length_specEMA, hdiflen]
  · rw [List.length_zipWith, length_specEMA, hdiflen, Nat.min_self]

/-- C3: for every nonempty ascending series shorter than the respective
window, the assembled snapshot shows the `"N/A"` sentinel for MA5 (< 5),
MA10 (< 10), RSI (< 14), and MA20, both Bollinger bands, the middle band
and the volatility (< 20) — the assembly succeeds (`.ok`, no crash) and no
numeric zero is substituted. -/
theorem claim_C3_short_series_sentinels (sq : ℚ → ℚ) (hk : Bool) (bars : List RawBar)
    (tov : String) (hne : bars ≠ []) (_hasc : datesAscending bars = true) :
    (bars.length < 5 → Except.map Snap.ma5 (assembleSnapshot sq hk bars tov) = .ok "N/A") ∧
    (bars.length < 10 → Except.map Snap.ma10 (assembleSnapshot sq hk bars tov) = .ok "N/A") ∧
    (bars.length < 14 → Except.map Snap.rsi (assembleSnapshot sq hk bars tov) = .ok "N/A") ∧
    (bars.length < 20 →
      Except.map Snap.ma20 (assembleSnapshot sq hk bars tov) = .ok "N/A" ∧
      Except.map Snap.bb_upper (assembleSnapshot sq hk bars tov) = .ok "N/A" ∧
      Except.map Snap.bb_middle (assembleSnapshot sq hk bars tov) = .ok "N/A" ∧
      Except.map Snap.bb_lower (assembleSnapshot sq hk bars tov) = .ok "N/A" ∧
      Except.map Snap.volatility (assembleSnapshot sq hk bars tov) = .ok "N/A") := by
  obtain ⟨b, bs, rfl⟩ : ∃ b bs, bars = b :: bs := by
    cases bars with
    | nil => exact absurd rfl hne
    | cons b bs => exact ⟨b, bs, rfl⟩
  have hcs_len : (sortedCloses (b :: bs)).length = (b :: bs).length := length_sortedCloses _
  have hps_len : (sortedPcts (b :: bs)).length = (b :: bs).length := length_sortedPcts _
  have hcs_ne : sortedCloses (b :: bs) ≠ [] := by
    intro h0
    rw [h0] at hcs_len
    simp at hcs_len
  have hps_ne : sortedPcts (b :: bs) ≠ [] := by
    intro h0
    rw [h0] at hps_len
    simp at hps_len
  refine ⟨?_, ?_, ?_, ?_⟩
  · intro hlt
    have hcol : lastOfOptCol
        (get_enhanced_technical_indicators sq (fun _ => false) { bars := b :: bs }).ma5 = none := by
      rw [engine_noFault_eq]
      show lastOfOptCol (some (rollingMean 5 (sortedCloses (b :: bs)))) = none
      simp only [lastOfOptCol]
      rw [getLast?_rollingMean_short 5 _ hcs_ne (by rw [hcs_len]; exact hlt)]
    simp [assembleSnapshot, Except.map, hcol, fmtOpt]
  · intro hlt
    have hcol : lastOfOptCol
        (get_enhanced_technical_indicators sq (fun _ => false) { bars := b :: bs }).ma10 = none := by
      rw [engine_noFault_eq]
      show lastOfOptCol (some (rollingMean 10 (sortedCloses (b :: bs)))) = none
      simp only [lastOfOptCol]
      rw [getLast?_rollingMean_short 10 _ hcs_ne (by rw [hcs_len]; exact hlt)]
    simp [assembleSnapshot, Except.map, hcol, fmtOpt]
  · intro hlt
    have hcol : lastOfOptCol
        (get_enhanced_technical_indicators sq (fun _ => false) { bars := b :: bs }).rsi = none := by
      rw [engine_noFault_eq]
      show lastOfOptCol (some (rsiCol (sortedCloses (b :: bs)))) = none
      simp only [lastOfOptCol]
      rw [getLast?_rsiCol_short _ hcs_ne (by rw [hcs_len]; exact hlt)]
    simp [assembleSnapshot, Except.map, hcol, fmtOpt]
  · intro hlt
    have hma20 : lastOfOptCol
        (get_enhanced_technical_indicators sq (fun _ => false) { bars := b :: bs }).ma20 = none := by
      rw [engine_noFault_eq]
      show lastOfOptCol (some (rollingMean 20 (sortedCloses (b :: bs)))) = none
      simp only [lastOfOptCol]
      rw [getLast?_rollingMean_short 20 _ hcs_ne (by rw [hcs_len]; exact hlt)]
    have hup : lastOfOptCol
        (get_enhanced_technical_indicators sq (fun _ => false) { bars := b :: bs }).bb_upper =
          none := by
      rw [engine_noFault_eq]
      show lastOfOptCol (some (zipOptWith (fun a s => a + 2 * s)
        (rollingMean 20 (sortedCloses (b :: bs)))
        (rollingStd sq 20 (sortedCloses (b :: bs))))) = none
      simp only [lastOfOptCol]
      rw [getLast?_bbBand_short _ sq _ hcs_ne (by rw [hcs_len]; exact hlt)]
    have hmid : lastOfOptCol
        (get_enhanced_technical_indicators sq (fun _ => false) { bars := b :: bs }).bb_middle =
          none := by
      rw [engine_noFault_eq]
      show lastOfOptCol (some (rollingMean 20 (sortedCloses (b :: bs)))) = none
      simp only [lastOfOptCol]
      rw [getLast?_rollingMean_short 20 _ hcs_ne (by rw [hcs_len]; exact hlt)]
    have hlo : lastOfOptCol
        (get_enhanced_technical_indicators sq (fun _ => false) { bars := b :: bs }).bb_lower =
          none := by
      rw [engine_noFault_eq]
      show lastOfOptCol (some (zipOptWith (fun a s => a - 2 * s)
        (rollingMean 20 (sortedCloses (b :: bs)))
        (rollingStd sq 20 (sortedCloses (b :: bs))))) = none
      simp only [lastOfOptCol]
      rw [getLast?_bbBand_short _ sq _ hcs_ne (by rw [hcs_len]; exact hlt)]
    have hvol : lastOfOptCol
        (get_enhanced_technical_indicators sq (fun _ => false) { bars := b :: bs }).volatility =
          none := by
      rw [engine_noFault_eq]
      show lastOfOptCol (some (rollingStd sq 20 (sortedPcts (b :: bs)))) = none
      simp only [lastOfOptCol]
      rw [getLast?_rollingStd_short sq 20 _ hps_ne (by rw [hps_len]; exact hlt)]
    exact ⟨by simp [assembleSnapshot, Except.map, hma20, fmtOpt],
      by simp [assembleSnapshot, Except.map, hup, fmtOpt],
      by simp [assembleSnapshot, Except.map, hmid, fmtOpt],
      by simp [assembleSnapshot, Except.map, hlo, fmtOpt],
      by simp [assembleSnapshot, Except.map, hvol, fmtOpt]⟩

/-- C3 witness: three ascending bars — every windowed indicator field of
the assembled snapshot is `"N/A"`. -/
theorem claim_C3_short_series_sentinels_witness :
    Except.map Snap.ma5 (assembleSnapshot (fun q => q) false exBarsShort "N/A") = .ok "N/A" ∧
    Except.map Snap.ma10 (assembleSnapshot (fun q => q) false exBarsShort "N/A") = .ok "N/A" ∧
    Except.map Snap.rsi (assembleSnapshot (fun q => q) false exBarsShort "N/A") = .ok "N/A" ∧
    Except.map Snap.ma20 (assembleSnapshot (fun q => q) false exBarsShort "N/A") = .ok "N/A" ∧
    Except.map Snap.bb_upper (assembleSnapshot (fun q => q) false exBarsShort "N/A") =
      .ok "N/A" ∧
    Except.map Snap.bb_middle (assembleSnapshot (fun q => q) false exBarsShort "N/A") =
      .ok "N/A" ∧
    Except.map Snap.bb_lower (assembleSnapshot (fun q => q) false exBarsShort "N/A") =
      .ok "N/A" ∧
    Except.map Snap.volatility (assembleSnapshot (fun q => q) false exBarsShort "N/A") =
      .ok "N/A" := by
  have h := claim_C3_short_series_sentinels (fun q => q) false exBarsShort "N/A"
    (List.cons_ne_nil _ _) (by decide)
  obtain ⟨h5, h10, h14, h20⟩ := h
  obtain ⟨ha, hb, hc, hd, he⟩ := h20 (by decide)
  exact ⟨h5 (by decide), h10 (by decide), h14 (by decide), ha, hb, hc, hd, he⟩

theorem gainCol_nonneg (delta : List (Option ℚ)) : ∀ x ∈ gainCol delta, 0 ≤ x := by
  intro x hx
  simp only [gainCol, List.mem_map] at hx
  obtain ⟨d, _, rfl⟩ := hx
  cases d with
  | none => exact le_refl 0
  | some v =>
    dsimp only
    split_ifs with h
    · exact le_of_lt h
    · exact le_refl 0

theorem lossCol_nonneg (delta : List (Option ℚ)) : ∀ x ∈ lossCol delta, 0 ≤ x := by
  intro x hx
  simp only [lossCol, List.mem_map] at hx
  obtain ⟨d, _, rfl⟩ := hx
  cases d with
  | none => exact le_refl 0
  | some v =>
    dsimp only
    split_ifs with h
    · linarith
    · exact le_refl 0

theorem rollingMean_nonneg (w : Nat) (xs : List ℚ) (i : Nat) (m : ℚ)
    (hx : ∀ x ∈ xs, 0 ≤ x) (h : (rollingMean w xs)[i]? = some (some m)) : 0 ≤ m := by
  rw [rollingMean, List.getElem?_map] at h
  cases hr : (List.range xs.length)[i]? with
  | none => rw [hr] at h; simp at h
  | some j =>
    rw [hr] at h
    dsimp only [Option.map] at h
    by_cases hw : w ≤ j + 1
    · rw [if_pos hw] at h
      have hm : (windowSlice w xs j).sum / (w : ℚ) = m := by simpa using h
      rw [← hm]
      apply div_nonneg
      · apply List.sum_nonneg
        intro x hxm
        rw [windowSlice] at hxm
        exact hx x (List.mem_of_mem_take (List.mem_of_mem_drop hxm))
      · exact Nat.cast_nonneg w
    · rw [if_neg hw] at h
      simp at h

/-- C2: the engine's RSI column (lines 44-49), wherever it carries a
defined value, lies within [0, 100]; and at any bar where the trailing-14
loss average is exactly zero while the gain average is positive, the RSI
is exactly 100 — the division by zero surfaces as maximal strength, not
as a computation fault. -/
theorem claim_C2_rsi_bounds (close : List ℚ) (i : Nat) :
    (∀ r : ℚ, (rsiCol close)[i]? = some (some r) → 0 ≤ r ∧ r ≤ 100) ∧
    (∀ g : ℚ, (gainAvgCol close)[i]? = some (some g) → 0 < g →
      (lossAvgCol close)[i]? = some (some 0) → (rsiCol close)[i]? = some (some 100)) := by
  constructor
  · intro r hr
    rw [rsiCol, List.getElem?_zipWith] at hr
    cases hg : (gainAvgCol close)[i]? with
    | none => rw [hg] at hr; simp at hr
    | some go =>
      cases hl : (lossAvgCol close)[i]? with
      | none => rw [hg, hl] at hr; simp at hr
      | some lo =>
        rw [hg, hl] at hr
        dsimp only at hr
        cases go with
        | none => simp [rsiPoint] at hr
        | some g =>
          cases lo with
          | none => simp [rsiPoint] at hr
          | some l =>
            have hgn : 0 ≤ g := rollingMean_nonneg 14 _ i g (gainCol_nonneg _) hg
            have hln : 0 ≤ l := rollingMean_nonneg 14 _ i l (lossCol_nonneg _) hl
            simp only [rsiPoint] at hr
            by_cases hl0 : l = 0
            · rw [if_pos hl0] at hr
              by_cases hg0 : g = 0
              · rw [if_pos hg0] at hr; simp at hr
              · rw [if_neg hg0] at hr
                have h100 : (100 : ℚ) = r := by simpa using hr
                constructor <;> rw [← h100] <;> norm_num
            · rw [if_neg hl0] at hr
              have hrv : 100 - 100 / (1 + g / l) = r := by simpa using hr
              have hlpos : 0 < l := lt_of_le_of_ne hln (Ne.symm hl0)
              have hq : 0 ≤ g / l := div_nonneg hgn hln
              have h1 : (1 : ℚ) ≤ 1 + g / l := by linarith
              have hle : 100 / (1 + g / l) ≤ 100 := div_le_self (by norm_num) h1
              have hge : 0 ≤ 100 / (1 + g / l) := div_nonneg (by norm_num) (by linarith)
              constructor <;> rw [← hrv] <;> linarith
  · intro g hg hpos hl
    rw [rsiCol, List.getElem?_zipWith, hg, hl]
    dsimp only
    simp [rsiPoint, ne_of_gt hpos]

theorem exGainAvg_eval : (gainAvgCol exClose15)[14]? = some (some 1) := by
  unfold gainAvgCol
  rw [rollingMean_getElem_ge 14 _ 14 (by decide) (by norm_num)]
  have hslice : windowSlice 14 (gainCol (diffCol exClose15)) 14 =
      (gainCol (diffCol exClose15)).tail := by
    rw [windowSlice, show (14 + 1 : Nat) = 15 from rfl, show (15 - 14 : Nat) = 1 from rfl,
      List.take_of_length_le (by decide), List.drop_one]
  rw [hslice]
  norm_num [exClose15, diffCol, diffsFrom, gainCol]

theorem exLossAvg_eval : (lossAvgCol exClose15)[14]? = some (some 0) := by
  unfold lossAvgCol
  rw [rollingMean_getElem_ge 14 _ 14 (by decide) (by norm_num)]
  have hslice : windowSlice 14 (lossCol (diffCol exClose15)) 14 =
      (lossCol (diffCol exClose15)).tail := by
    rw [windowSlice, show (14 + 1 : Nat) = 15 from rfl, show (15 - 14 : Nat) = 1 from rfl,
      List.take_of_length_le (by decide), List.drop_one]
  rw [hslice]
  norm_num [exClose15, diffCol, diffsFrom, lossCol]

/-- C2 witness: fifteen strictly ascending closes give gain average 1 and
loss average 0 at the last bar, so the RSI there is exactly 100 and within
bounds. -/
theorem claim_C2_rsi_bounds_witness :
    ((0 : ℚ) ≤ 100 ∧ (100 : ℚ) ≤ 100) ∧ (rsiCol exClose15)[14]? = some (some 100) := by
  have h2 := (claim_C2_rsi_bounds exClose15 14).2 1 exGainAvg_eval (by norm_num) exLossAvg_eval
  exact ⟨(claim_C2_rsi_bounds exClose15 14).1 100 h2, h2⟩
